import Mathlib

/-!
Shallow embedding of the provider-dispatch core of the Piper backend
(`api/index.js`): provider detection from an endpoint URL, the global
instruction block, per-provider request construction, response
normalization, the `/api/chat` dispatch pipeline, and the
`DELETE /api/models/:id` guard.  JavaScript strings are modelled by
`String`, absent / `undefined` values by `Option`, JSON documents by the
`Json` inductive below, and JS truthiness of string values by `jsTruthy`.
-/

set_option maxRecDepth 40000

namespace Piper

/-- JS truthiness of a possibly-absent string value: `undefined`/missing and
the empty string are falsy, every other string is truthy. -/
def jsTruthy : Option String → Bool
  | none => false
  | some s => !(s == "")

/-- JS `a || d` for a possibly-absent string `a` and a default string `d`:
the first operand is kept exactly when it is truthy. -/
def jsOrD (x : Option String) (d : String) : String :=
  match x with
  | some s => if s == "" then d else s
  | none => d

/-- JS `a || b` where both operands are possibly-absent strings. -/
def jsOrOpt (x y : Option String) : Option String :=
  match x with
  | some s => if s == "" then y else some s
  | none => y

/-- JS `a || b` on plain strings (the empty string is the only falsy string). -/
def jsOrStr (a b : String) : String :=
  if a == "" then b else a

/-- ASCII lower-casing of one character, as applied by
`String.prototype.toLowerCase` on the ASCII range. -/
def lowerChar (c : Char) : Char :=
  if 65 ≤ c.toNat ∧ c.toNat ≤ 90 then Char.ofNat (c.toNat + 32) else c

/-- Models `url.toLowerCase()` (character-wise ASCII lower-casing). -/
def strToLower (s : String) : String := ⟨s.data.map lowerChar⟩

/-- Boolean list-prefix test used to implement the substring test below. -/
def listPrefixOf : List Char → List Char → Bool
  | [], _ => true
  | _ :: _, [] => false
  | a :: as, b :: bs => a == b && listPrefixOf as bs

/-- Boolean contiguous-sublist test: `hasInfix pat s` holds when `pat`
occurs contiguously inside `s`. -/
def hasInfix (pat : List Char) : List Char → Bool
  | [] => listPrefixOf pat []
  | c :: rest => listPrefixOf pat (c :: rest) || hasInfix pat rest

/-- Models `s.includes(pat)` on JS strings. -/
def strIncludes (s pat : String) : Bool := hasInfix pat.data s.data

/-- ASCII whitespace, as stripped by `String.prototype.trim`. -/
def isWS (c : Char) : Bool := c == ' ' || c == '\t' || c == '\n' || c == '\r'

/-- Models `s.trim()`: strip whitespace from both ends. -/
def jsTrim (s : String) : String :=
  ⟨((s.data.dropWhile isWS).reverse.dropWhile isWS).reverse⟩

/-- The provider kinds returned by `detectarTipoAPI`; `openai` is the
openai-compatible default. -/
inductive TipoAPI where
  | gemini
  | anthropic
  | groq
  | openrouter
  | openai
deriving DecidableEq

/-- JSON documents, used for request and response bodies. -/
inductive Json where
  | null : Json
  | str : String → Json
  | num : ℚ → Json
  | bool : Bool → Json
  | arr : List Json → Json
  | obj : List (String × Json) → Json

/-- Field access on a JSON object (`data.f`): `none` on a non-object or a
missing key, mirroring JS optional chaining. -/
def Json.getField : Json → String → Option Json
  | .obj fs, k => (fs.find? (fun p => p.1 == k)).map Prod.snd
  | _, _ => none

/-- Index access on a JSON array (`data[i]`), `none` out of range or on a
non-array, mirroring JS optional chaining. -/
def Json.getIdx : Json → Nat → Option Json
  | .arr xs, i => xs.get? i
  | _, _ => none

/-- The string content of a JSON string node, `none` otherwise. -/
def Json.asStr : Json → Option String
  | .str s => some s
  | _ => none

/-- The constant `INSTRUCCIONES_GLOBALES` of `api/index.js`, byte for byte
(a template literal opening and closing with a newline, with the original
trailing spaces kept). -/
def INSTRUCCIONES_GLOBALES : String :=
  "\nREGLAS OBLIGATORIAS PARA TODAS LAS RESPUESTAS:\n\n1. FORMATO DE ESCRITURA:\n   - NO uses asteriscos (*) para enfatizar texto\n   - NO uses emojis en tus respuestas\n   - Escribe en texto plano y natural\n   - Usa mayúsculas solo cuando sea gramaticalmente correcto\n\n2. ESTILO:\n   - Respuestas cortas a menos que el usuario te pida que uses respuestas mas largas\n \n3. IDIOMA:\n   - SIEMPRE responde en español\n   - Usa acentos y puntuación correctamente\n   - No uses astericos por ningún motivo al escribir \n\nIMPORTANTE: Estas reglas son obligatorias y se aplican ANTES de tu personalidad específica.\n"

/-- The function `detectarTipoAPI(url)`: falsy URL gives the default,
otherwise the lower-cased URL is matched against the four host fragments in
source order, first match winning, default `openai` when none matches. -/
def detectarTipoAPI : Option String → TipoAPI
  | none => .openai
  | some url =>
    if url == "" then .openai
    else
      let urlLower := strToLower url
      if strIncludes urlLower "generativelanguage.googleapis.com" then .gemini
      else if strIncludes urlLower "api.anthropic.com" then .anthropic
      else if strIncludes urlLower "api.groq.com" then .groq
      else if strIncludes urlLower "openrouter.ai" then .openrouter
      else .openai

/-- The `systemPromptFinal` computation at the top of `llamarAPI`: the global
instructions, followed by `"\n\n"` and the character prompt when that prompt
is truthy. -/
def systemPromptFinal (systemPrompt : Option String) : String :=
  if jsTruthy systemPrompt then
    INSTRUCCIONES_GLOBALES ++ "\n\n" ++ systemPrompt.getD ""
  else INSTRUCCIONES_GLOBALES

/-- An outbound HTTP request, as assembled by `llamarAPI` before `fetch`. -/
structure HttpRequest where
  method : String
  reqUrl : String
  headers : List (String × String)
  body : Json

/-- One `{role, content}` chat message object. -/
def msgJson (role content : String) : Json :=
  .obj [("role", .str role), ("content", .str content)]

/-- The request-construction half of `llamarAPI`: for each provider kind,
the URL, headers and JSON body that the source passes to `fetch`. -/
def llamarAPIRequest (tipoAPI : TipoAPI) (url apiKey message : String)
    (systemPrompt : Option String) : HttpRequest :=
  let spf := systemPromptFinal systemPrompt
  match tipoAPI with
  | .gemini =>
    let geminiUrl := if strIncludes url "?key=" then url else url ++ "?key=" ++ apiKey
    { method := "POST"
      reqUrl := geminiUrl
      headers := [("Content-Type", "application/json")]
      body := .obj [
        ("contents", .arr [.obj [("parts", .arr [.obj [("text",
          .str (if spf == "" then message else spf ++ "\n\nUsuario: " ++ message))]])]]),
        ("generationConfig", .obj [("temperature", .num 0.7), ("maxOutputTokens", .num 1000)])] }
  | .anthropic =>
    let claudeMessages :=
      (if spf == "" then [] else [msgJson "user" spf, msgJson "assistant" "Entendido."])
        ++ [msgJson "user" message]
    { method := "POST"
      reqUrl := url
      headers := [("Content-Type", "application/json"), ("x-api-key", apiKey),
        ("anthropic-version", "2023-06-01")]
      body := .obj [("model", .str "claude-3-sonnet-20240229"),
        ("messages", .arr claudeMessages), ("max_tokens", .num 1000)] }
  | .groq =>
    { method := "POST"
      reqUrl := url
      headers := [("Content-Type", "application/json"), ("Authorization", "Bearer " ++ apiKey)]
      body := .obj [("model", .str "llama-3.3-70b-versatile"),
        ("messages", .arr [msgJson "system" (jsOrStr spf "Eres un asistente útil"),
          msgJson "user" message]),
        ("temperature", .num 0.7), ("max_tokens", .num 1000)] }
  | .openrouter =>
    { method := "POST"
      reqUrl := url
      headers := [("Content-Type", "application/json"), ("Authorization", "Bearer " ++ apiKey)]
      body := .obj [("model", .str "deepseek/deepseek-chat"),
        ("messages", .arr [msgJson "system" (jsOrStr spf "Eres un asistente útil"),
          msgJson "user" message])] }
  | .openai =>
    { method := "POST"
      reqUrl := url
      headers := [("Content-Type", "application/json"), ("Authorization", "Bearer " ++ apiKey)]
      body := .obj [
        ("messages", .arr [msgJson "system" (jsOrStr spf "Eres un asistente útil"),
          msgJson "user" message]),
        ("temperature", .num 0.7), ("max_tokens", .num 1000)] }

/-- Outcome of one provider call: the extracted reply text, or a thrown
error carrying a message. -/
inductive ChatOutcome where
  | success : String → ChatOutcome
  | failure : String → ChatOutcome
deriving DecidableEq

/-- Models `data.error?.message` on a provider response body. -/
def errorMessageField (data : Json) : Option String :=
  ((data.getField "error").bind (fun e => e.getField "message")).bind Json.asStr

/-- The per-kind success extraction path of `llamarAPI`:
gemini `candidates[0].content.parts[0].text`, anthropic `content[0].text`,
all other kinds `choices[0].message.content`, with optional chaining. -/
def extractField (tipoAPI : TipoAPI) (data : Json) : Option String :=
  match tipoAPI with
  | .gemini =>
    (((((data.getField "candidates").bind (fun j => j.getIdx 0)).bind
      (fun j => j.getField "content")).bind (fun j => j.getField "parts")).bind
      (fun j => (j.getIdx 0).bind (fun p => p.getField "text"))).bind Json.asStr
  | .anthropic =>
    (((data.getField "content").bind (fun j => j.getIdx 0)).bind
      (fun j => j.getField "text")).bind Json.asStr
  | _ =>
    ((((data.getField "choices").bind (fun j => j.getIdx 0)).bind
      (fun j => j.getField "message")).bind (fun j => j.getField "content")).bind Json.asStr

/-- The generic per-kind fallback error message thrown by `llamarAPI` when a
failed response carries no embedded `error.message`. -/
def defaultErrorMsg : TipoAPI → String
  | .gemini => "Error en Gemini API"
  | .anthropic => "Error en Claude API"
  | .groq => "Error en Groq API"
  | .openrouter => "Error en OpenRouter API"
  | .openai => "Error en API"

/-- The response-normalization half of `llamarAPI`: on a non-ok HTTP status
it throws `error.message` when truthy, else the per-kind default; on an ok
status it extracts the per-kind reply field, degrading to the literal
`"Sin respuesta"` when the field is absent or falsy. -/
def llamarAPIResponse (tipoAPI : TipoAPI) (ok : Bool) (data : Json) : ChatOutcome :=
  if ok then .success (jsOrD (extractField tipoAPI data) "Sin respuesta")
  else .failure (jsOrD (errorMessageField data) (defaultErrorMsg tipoAPI))

/-- One row of the `ia_models` table, as read by the chat endpoint
(`url` and `api_key` may be null). -/
structure ModelConfig where
  id : String
  name : String
  url : Option String
  api_key : Option String
  is_custom : Bool

/-- The three environment credentials read at startup into `API_KEYS`
(each may be unset). -/
structure Env where
  OPENROUTER_API_KEY : Option String
  GROQ_API_KEY : Option String
  GEMINI_API_KEY : Option String

/-- The `API_KEYS` table, keyed by provider kind; kinds without an entry
(anthropic, openai) give `undefined`, modelled as `none`. -/
def API_KEYS (env : Env) : TipoAPI → Option String
  | .openrouter => env.OPENROUTER_API_KEY
  | .groq => env.GROQ_API_KEY
  | .gemini => env.GEMINI_API_KEY
  | _ => none

/-- Result of running the `/api/chat` handler up to the provider call:
either an immediate HTTP response (status, JSON body) with no provider call
made, or the provider call about to be issued with the resolved kind, URL,
credential, message and character prompt. -/
inductive ChatStep where
  | respond : Nat → Json → ChatStep
  | callProvider : TipoAPI → Option String → String → String → Option String → ChatStep

/-- The error body `{success:false, error: msg}` sent on every failure. -/
def errBody (msg : String) : Json :=
  .obj [("success", .bool false), ("error", .str msg)]

/-- The guard `!message || message.trim() === ''` of the chat endpoint. -/
def mensajeInvalido (message : Option String) : Bool :=
  !(jsTruthy message) || jsTrim (message.getD "") == ""

/-- The guard `!apiKey || apiKey.trim() === ''` deciding whether the stored
model credential is usable. -/
def apiKeyBlank (k : Option String) : Bool :=
  !(jsTruthy k) || jsTrim (k.getD "") == ""

/-- Credential resolution of the chat endpoint: the stored `api_key` when it
is not blank, otherwise the environment credential for the detected kind,
falling back to the openrouter credential (`API_KEYS[tipoAPI] ||
API_KEYS.openrouter`). -/
def resolverApiKey (env : Env) (m : ModelConfig) : Option String :=
  if apiKeyBlank m.api_key then
    jsOrOpt (API_KEYS env (detectarTipoAPI m.url)) (API_KEYS env .openrouter)
  else m.api_key

/-- The `POST /api/chat` handler up to (and excluding) the provider call:
validate the message, validate `model_id`, look the model up, resolve a
credential, and either answer with an error response or proceed to call the
provider.  The database is modelled as the list of stored model rows, looked
up by id. -/
def chatDispatch (env : Env) (db : List ModelConfig)
    (model_id message system_prompt : Option String) : ChatStep :=
  if mensajeInvalido message then
    .respond 400 (errBody "Mensaje requerido")
  else if !(jsTruthy model_id) then
    .respond 400 (errBody "model_id requerido")
  else
    match db.find? (fun m => m.id == model_id.getD "") with
    | none => .respond 404 (errBody "Modelo no encontrado")
    | some modelConfig =>
      let apiKey := resolverApiKey env modelConfig
      if !(jsTruthy apiKey) then
        .respond 500 (errBody "API Key no configurada para este modelo")
      else
        .callProvider (detectarTipoAPI modelConfig.url) modelConfig.url (apiKey.getD "")
          (message.getD "") system_prompt

/-- The `DELETE /api/models/:id` handler on the success path of its two
database calls: refuse with 400 when the table holds at most one row,
otherwise delete every row with the given id (no `is_custom` restriction)
and answer 200.  Returns the HTTP response and the table after the call. -/
def deleteModelEndpoint (db : List ModelConfig) (id : String) :
    (Nat × Json) × List ModelConfig :=
  if db.length ≤ 1 then
    ((400, errBody "No puedes eliminar el último modelo"), db)
  else
    ((200, .obj [("success", .bool true), ("message", .str "Modelo eliminado correctamente")]),
      db.filter (fun m => !(m.id == id)))

/-- The global instruction block is a non-empty string. -/
theorem IG_length_pos : 0 < INSTRUCCIONES_GLOBALES.length := by decide

/-- The combined system prompt is never the empty string (as a `==` test,
which is how the source branches on it). -/
theorem spf_beq_empty (sp : Option String) : (systemPromptFinal sp == "") = false := by
  rw [beq_eq_false_iff_ne]
  unfold systemPromptFinal
  split
  · intro h
    have h2 := congrArg String.length h
    simp only [String.length_append] at h2
    have h3 := IG_length_pos
    have hn : ("\n\n" : String).length = 2 := rfl
    have he : ("" : String).length = 0 := rfl
    omega
  · intro h
    have h2 := congrArg String.length h
    have h3 := IG_length_pos
    have he : ("" : String).length = 0 := rfl
    omega

/-- The global instruction block is a prefix of every combined system
prompt. -/
theorem spf_prefix (sp : Option String) :
    ∃ t, systemPromptFinal sp = INSTRUCCIONES_GLOBALES ++ t := by
  by_cases h : jsTruthy sp = true
  · exact ⟨"\n\n" ++ sp.getD "", by simp [systemPromptFinal, h, String.append_assoc]⟩
  · exact ⟨"", by simp [systemPromptFinal, h, String.append_empty]⟩

/-- C1: `detectarTipoAPI` maps a missing or empty URL to the
openai-compatible default, otherwise matches the lower-cased URL against the
four host fragments in the fixed source order with the first match winning,
and returns the default when none matches.  It is a plain total Lean
function, hence pure with no failure mode. -/
theorem claim_C1 :
    detectarTipoAPI none = TipoAPI.openai ∧
    detectarTipoAPI (some "") = TipoAPI.openai ∧
    (∀ u : String,
      strIncludes (strToLower u) "generativelanguage.googleapis.com" = true →
      detectarTipoAPI (some u) = TipoAPI.gemini) ∧
    (∀ u : String,
      strIncludes (strToLower u) "generativelanguage.googleapis.com" = false →
      strIncludes (strToLower u) "api.anthropic.com" = true →
      detectarTipoAPI (some u) = TipoAPI.anthropic) ∧
    (∀ u : String,
      strIncludes (strToLower u) "generativelanguage.googleapis.com" = false →
      strIncludes (strToLower u) "api.anthropic.com" = false →
      strIncludes (strToLower u) "api.groq.com" = true →
      detectarTipoAPI (some u) = TipoAPI.groq) ∧
    (∀ u : String,
      strIncludes (strToLower u) "generativelanguage.googleapis.com" = false →
      strIncludes (strToLower u) "api.anthropic.com" = false →
      strIncludes (strToLower u) "api.groq.com" = false →
      strIncludes (strToLower u) "openrouter.ai" = true →
      detectarTipoAPI (some u) = TipoAPI.openrouter) ∧
    (∀ u : String,
      strIncludes (strToLower u) "generativelanguage.googleapis.com" = false →
      strIncludes (strToLower u) "api.anthropic.com" = false →
      strIncludes (strToLower u) "api.groq.com" = false →
      strIncludes (strToLower u) "openrouter.ai" = false →
      detectarTipoAPI (some u) = TipoAPI.openai) := by
  refine ⟨rfl, rfl, ?_, ?_, ?_, ?_, ?_⟩ <;> intro u
  · intro h1
    by_cases hu : u = ""
    · subst hu; exact absurd h1 (by decide)
    · simp [detectarTipoAPI, beq_iff_eq, hu, h1]
  · intro h1 h2
    by_cases hu : u = ""
    · subst hu; exact absurd h2 (by decide)
    · simp [detectarTipoAPI, beq_iff_eq, hu, h1, h2]
  · intro h1 h2 h3
    by_cases hu : u = ""
    · subst hu; exact absurd h3 (by decide)
    · simp [detectarTipoAPI, beq_iff_eq, hu, h1, h2, h3]
  · intro h1 h2 h3 h4
    by_cases hu : u = ""
    · subst hu; exact absurd h4 (by decide)
    · simp [detectarTipoAPI, beq_iff_eq, hu, h1, h2, h3, h4]
  · intro h1 h2 h3 h4
    by_cases hu : u = ""
    · subst hu; rfl
    · simp [detectarTipoAPI, beq_iff_eq, hu, h1, h2, h3, h4]

/-- Witness for C1: a mixed-case groq URL is detected as groq. -/
theorem claim_C1_witness :
    detectarTipoAPI (some "https://API.GROQ.com/openai/v1/chat/completions") = TipoAPI.groq :=
  claim_C1.2.2.2.2.1 "https://API.GROQ.com/openai/v1/chat/completions"
    (by decide) (by decide) (by decide)

/-- C2: the effective system prompt is the global instruction block followed
by `"\n\n"` and the character prompt when one is present (JS-truthy),
the global instruction block alone otherwise, and the global block is a
prefix of it in every case. -/
theorem claim_C2 (sp : Option String) :
    (∀ s, sp = some s → s ≠ "" →
      systemPromptFinal sp = INSTRUCCIONES_GLOBALES ++ "\n\n" ++ s) ∧
    (jsTruthy sp = false → systemPromptFinal sp = INSTRUCCIONES_GLOBALES) ∧
    (∃ t, systemPromptFinal sp = INSTRUCCIONES_GLOBALES ++ t) := by
  refine ⟨?_, ?_, spf_prefix sp⟩
  · intro s hs hne
    subst hs
    simp [systemPromptFinal, jsTruthy, hne]
  · intro h
    simp [systemPromptFinal, h]

/-- Witness for C2: a concrete character prompt is appended after the global
block and a separator. -/
theorem claim_C2_witness :
    systemPromptFinal (some "Eres Piper") = INSTRUCCIONES_GLOBALES ++ "\n\n" ++ "Eres Piper" :=
  (claim_C2 (some "Eres Piper")).1 "Eres Piper" rfl (by decide)

/-- The global instruction block is not the empty string, as a `==` test. -/
theorem IG_beq_empty : (INSTRUCCIONES_GLOBALES == "") = false := by decide

/-- C5: for the gemini kind the outbound URL is the configured URL unchanged
when it already contains `?key=`, and the configured URL with
`?key=<credential>` appended otherwise; the body is the fixed one-part
contents wrapper whose text is the effective prompt, `"\n\nUsuario: "` and
the message, with generationConfig temperature 0.7 and maxOutputTokens
1000. -/
theorem claim_C5 (url apiKey message : String) (sp : Option String) :
    (strIncludes url "?key=" = true →
      (llamarAPIRequest .gemini url apiKey message sp).reqUrl = url) ∧
    (strIncludes url "?key=" = false →
      (llamarAPIRequest .gemini url apiKey message sp).reqUrl = url ++ "?key=" ++ apiKey) ∧
    (llamarAPIRequest .gemini url apiKey message sp).body =
      Json.obj [
        ("contents", .arr [.obj [("parts", .arr [.obj [("text",
          .str (systemPromptFinal sp ++ "\n\nUsuario: " ++ message))]])]]),
        ("generationConfig", .obj [("temperature", .num 0.7), ("maxOutputTokens", .num 1000)])] := by
  refine ⟨?_, ?_, ?_⟩
  · intro h; simp [llamarAPIRequest, h]
  · intro h; simp [llamarAPIRequest, h]
  · simp [llamarAPIRequest, spf_beq_empty]

/-- Witness for C5: a URL without `?key=` gets the credential appended. -/
theorem claim_C5_witness :
    (llamarAPIRequest .gemini
      "https://generativelanguage.googleapis.com/v1beta/models/gemini-2.5-flash:generateContent"
      "sk-123" "hola" none).reqUrl =
    "https://generativelanguage.googleapis.com/v1beta/models/gemini-2.5-flash:generateContent"
      ++ "?key=" ++ "sk-123" :=
  (claim_C5
    "https://generativelanguage.googleapis.com/v1beta/models/gemini-2.5-flash:generateContent"
    "sk-123" "hola" none).2.1 (by decide)

/-- Counterexample for C6: with kind groq, message `"hola"` and no character
prompt, the system message content is exactly the global instruction block,
which does not even contain the literal `"Eres un asistente útil"`; so the
content is not that literal combined with the global policy text. -/
theorem claim_C6_cex :
    (((llamarAPIRequest .groq "https://api.groq.com/openai/v1/chat/completions" "k" "hola"
        none).body.getField "messages").bind
      (fun j => (j.getIdx 0).bind (fun m => (m.getField "content").bind Json.asStr)))
      = some INSTRUCCIONES_GLOBALES ∧
    strIncludes INSTRUCCIONES_GLOBALES "Eres un asistente útil" = false := by
  exact ⟨rfl, by decide⟩

/-- C6 (amended): with kind groq, message `"hola"` and no character prompt,
the system message content is the global instruction block alone — the
literal fallback `"Eres un asistente útil"` is not used — and the body
carries model `llama-3.3-70b-versatile`, temperature 0.7 and
max_tokens 1000. -/
theorem claim_C6 (url apiKey : String) :
    llamarAPIRequest .groq url apiKey "hola" none =
      { method := "POST"
        reqUrl := url
        headers := [("Content-Type", "application/json"), ("Authorization", "Bearer " ++ apiKey)]
        body := .obj [("model", .str "llama-3.3-70b-versatile"),
          ("messages", .arr [msgJson "system" INSTRUCCIONES_GLOBALES, msgJson "user" "hola"]),
          ("temperature", .num 0.7), ("max_tokens", .num 1000)] } := by
  simp [llamarAPIRequest, jsOrStr, systemPromptFinal, jsTruthy, IG_beq_empty]

/-- C10: the global instruction block is non-empty, hence the combined
system prompt is non-empty for every input; consequently the groq,
openrouter and openai-compatible bodies always carry the combined prompt as
system content (the literal fallback `"Eres un asistente útil"` is never
used), the gemini text always carries the combined prompt before
`"Usuario:"` (the bare-message branch is never taken), and the anthropic
message list always begins with the priming user-prompt and
assistant-`"Entendido."` turns. -/
theorem claim_C10 :
    (INSTRUCCIONES_GLOBALES == "") = false ∧
    (∀ sp, (systemPromptFinal sp == "") = false) ∧
    (∀ url apiKey message sp,
      (llamarAPIRequest .groq url apiKey message sp).body =
        Json.obj [("model", .str "llama-3.3-70b-versatile"),
          ("messages", .arr [msgJson "system" (systemPromptFinal sp), msgJson "user" message]),
          ("temperature", .num 0.7), ("max_tokens", .num 1000)]) ∧
    (∀ url apiKey message sp,
      (llamarAPIRequest .openrouter url apiKey message sp).body =
        Json.obj [("model", .str "deepseek/deepseek-chat"),
          ("messages", .arr [msgJson "system" (systemPromptFinal sp), msgJson "user" message])]) ∧
    (∀ url apiKey message sp,
      (llamarAPIRequest .openai url apiKey message sp).body =
        Json.obj [
          ("messages", .arr [msgJson "system" (systemPromptFinal sp), msgJson "user" message]),
          ("temperature", .num 0.7), ("max_tokens", .num 1000)]) ∧
    (∀ url apiKey message sp,
      (llamarAPIRequest .gemini url apiKey message sp).body =
        Json.obj [
          ("contents", .arr [.obj [("parts", .arr [.obj [("text",
            .str (systemPromptFinal sp ++ "\n\nUsuario: " ++ message))]])]]),
          ("generationConfig", .obj [("temperature", .num 0.7), ("maxOutputTokens", .num 1000)])]) ∧
    (∀ url apiKey message sp,
      (llamarAPIRequest .anthropic url apiKey message sp).body =
        Json.obj [("model", .str "claude-3-sonnet-20240229"),
          ("messages", .arr [msgJson "user" (systemPromptFinal sp),
            msgJson "assistant" "Entendido.", msgJson "user" message]),
          ("max_tokens", .num 1000)]) := by
  refine ⟨IG_beq_empty, spf_beq_empty, ?_, ?_, ?_, ?_, ?_⟩ <;>
    intro url apiKey message sp <;>
    simp [llamarAPIRequest, jsOrStr, spf_beq_empty]

/-- C7: on a failed HTTP status, normalization throws the embedded
`error.message` whenever that field is present (and truthy, as the source's
`||` requires), and the generic per-kind default message otherwise; in
particular a failed response whose body is `{error:{message:"rate limited"}}`
throws exactly `"rate limited"`, for every provider kind. -/
theorem claim_C7 (k : TipoAPI) (data : Json) :
    (∀ m, errorMessageField data = some m → m ≠ "" →
      llamarAPIResponse k false data = ChatOutcome.failure m) ∧
    (jsTruthy (errorMessageField data) = false →
      llamarAPIResponse k false data = ChatOutcome.failure (defaultErrorMsg k)) ∧
    llamarAPIResponse k false (.obj [("error", .obj [("message", .str "rate limited")])])
      = ChatOutcome.failure "rate limited" := by
  refine ⟨?_, ?_, rfl⟩
  · intro m hm hne
    simp [llamarAPIResponse, jsOrD, hm, hne]
  · intro h
    cases he : errorMessageField data with
    | none => simp [llamarAPIResponse, jsOrD, he]
    | some s =>
      rw [he] at h
      simp [jsTruthy] at h
      simp [llamarAPIResponse, jsOrD, he, h]

/-- Witness for C7: a concrete failed body with an embedded message. -/
theorem claim_C7_witness :
    llamarAPIResponse .groq false (Json.obj [("error", Json.obj [("message", Json.str "boom")])])
      = ChatOutcome.failure "boom" :=
  (claim_C7 .groq (Json.obj [("error", Json.obj [("message", Json.str "boom")])])).1
    "boom" rfl (by decide)

/-- C8: on a nominal success status, when the per-kind extraction path is
absent from the body, normalization returns the literal `"Sin respuesta"`
and does not throw; in particular a success response with `choices: []` for
kind openrouter yields `"Sin respuesta"`. -/
theorem claim_C8 (k : TipoAPI) (data : Json) :
    (extractField k data = none →
      llamarAPIResponse k true data = ChatOutcome.success "Sin respuesta") ∧
    llamarAPIResponse .openrouter true (.obj [("choices", .arr [])])
      = ChatOutcome.success "Sin respuesta" := by
  refine ⟨?_, rfl⟩
  intro h
  simp [llamarAPIResponse, jsOrD, h]

/-- Witness for C8: a gemini success body with no candidates field. -/
theorem claim_C8_witness :
    llamarAPIResponse .gemini true (Json.obj [("ok", Json.bool true)])
      = ChatOutcome.success "Sin respuesta" :=
  (claim_C8 .gemini (Json.obj [("ok", Json.bool true)])).1 rfl

/-- JS truthiness of `a || b` is the disjunction of the truthiness of the
operands. -/
theorem jsTruthy_jsOrOpt (x y : Option String) :
    jsTruthy (jsOrOpt x y) = (jsTruthy x || jsTruthy y) := by
  cases x with
  | none => simp [jsOrOpt, jsTruthy]
  | some s =>
    by_cases h : s = ""
    · subst h; simp [jsOrOpt, jsTruthy]
    · simp [jsOrOpt, jsTruthy, h]

/-- A truthy first operand is kept by `||`. -/
theorem jsOrOpt_of_truthy (x y : Option String) (h : jsTruthy x = true) :
    jsOrOpt x y = x := by
  cases x with
  | none => simp [jsTruthy] at h
  | some s =>
    simp [jsTruthy] at h
    simp [jsOrOpt, h]

/-- A falsy first operand falls through to the second operand of `||`. -/
theorem jsOrOpt_of_falsy (x y : Option String) (h : jsTruthy x = false) :
    jsOrOpt x y = y := by
  cases x with
  | none => simp [jsOrOpt]
  | some s =>
    simp [jsTruthy] at h
    simp [jsOrOpt, h]

/-- A non-blank stored credential is in particular truthy. -/
theorem apiKeyBlank_truthy (k : Option String) (h : apiKeyBlank k = false) :
    jsTruthy k = true := by
  unfold apiKeyBlank at h
  rcases Bool.or_eq_false_iff.mp h with ⟨h1, _⟩
  simpa using h1

/-- C3 (amended): the chat endpoint answers 400 `Mensaje requerido` on a
missing or blank message, 400 `model_id requerido` on a missing model id,
404 `Modelo no encontrado` when no stored row matches, and 500 with the
message `"API Key no configurada para este modelo"` when neither a usable
stored credential nor an environment credential (detected kind or
openrouter fallback) exists; every failure body is
`{success:false, error: message}` (`errBody`), and a `respond` outcome is
never a provider call. -/
theorem claim_C3 (env : Env) (db : List ModelConfig)
    (model_id message system_prompt : Option String) :
    (mensajeInvalido message = true →
      chatDispatch env db model_id message system_prompt
        = ChatStep.respond 400 (errBody "Mensaje requerido")) ∧
    (mensajeInvalido message = false → jsTruthy model_id = false →
      chatDispatch env db model_id message system_prompt
        = ChatStep.respond 400 (errBody "model_id requerido")) ∧
    (mensajeInvalido message = false → jsTruthy model_id = true →
      db.find? (fun m => m.id == model_id.getD "") = none →
      chatDispatch env db model_id message system_prompt
        = ChatStep.respond 404 (errBody "Modelo no encontrado")) ∧
    (∀ m : ModelConfig, mensajeInvalido message = false → jsTruthy model_id = true →
      db.find? (fun x => x.id == model_id.getD "") = some m →
      apiKeyBlank m.api_key = true →
      jsTruthy (API_KEYS env (detectarTipoAPI m.url)) = false →
      jsTruthy (API_KEYS env TipoAPI.openrouter) = false →
      chatDispatch env db model_id message system_prompt
        = ChatStep.respond 500 (errBody "API Key no configurada para este modelo")) ∧
    (∀ (s : Nat) (b : Json) (k : TipoAPI) (u : Option String) (a ms : String)
      (c : Option String), ChatStep.respond s b ≠ ChatStep.callProvider k u a ms c) := by
  refine ⟨?_, ?_, ?_, ?_, ?_⟩
  · intro h1
    simp [chatDispatch, h1]
  · intro h1 h2
    simp [chatDispatch, h1, h2]
  · intro h1 h2 h3
    simp [chatDispatch, h1, h2, h3]
  · intro m h1 h2 h3 h4 h5 h6
    simp [chatDispatch, h1, h2, h3, resolverApiKey, h4, jsTruthy_jsOrOpt, h5, h6]
  · intro s b k u a ms c h
    exact ChatStep.noConfusion h

/-- Witness for C3: a missing message yields the 400 response. -/
theorem claim_C3_witness :
    chatDispatch ⟨none, none, none⟩ [] none none none
      = ChatStep.respond 400 (errBody "Mensaje requerido") :=
  (claim_C3 ⟨none, none, none⟩ [] none none none).1 (by decide)

/-- Counterexample for C3 as stated: at a concrete request with no
resolvable credential the endpoint answers 500 with the error text
`"API Key no configurada para este modelo"`, which is not the text
`"API Key no configurada"` the claim quotes. -/
theorem claim_C3_cex :
    chatDispatch ⟨none, none, none⟩
        [⟨"m1", "Modelo", some "https://example.com/v1", none, false⟩]
        (some "m1") (some "hola") none
      = ChatStep.respond 500 (errBody "API Key no configurada para este modelo") ∧
    ChatStep.respond 500 (errBody "API Key no configurada para este modelo")
      ≠ ChatStep.respond 500 (errBody "API Key no configurada") := by
  constructor
  · rfl
  · simp [errBody]

/-- C4: the credential handed to the provider call is the stored model
credential whenever it is non-blank; otherwise the environment credential
for the kind detected from the model URL; and when that entry is absent or
falsy, the openrouter environment credential. -/
theorem claim_C4 (env : Env) (db : List ModelConfig)
    (model_id message system_prompt : Option String) (m : ModelConfig)
    (hmsg : mensajeInvalido message = false) (hmid : jsTruthy model_id = true)
    (hfind : db.find? (fun x => x.id == model_id.getD "") = some m) :
    (apiKeyBlank m.api_key = false →
      chatDispatch env db model_id message system_prompt
        = ChatStep.callProvider (detectarTipoAPI m.url) m.url (m.api_key.getD "")
            (message.getD "") system_prompt) ∧
    (apiKeyBlank m.api_key = true →
      jsTruthy (API_KEYS env (detectarTipoAPI m.url)) = true →
      chatDispatch env db model_id message system_prompt
        = ChatStep.callProvider (detectarTipoAPI m.url) m.url
            ((API_KEYS env (detectarTipoAPI m.url)).getD "") (message.getD "") system_prompt) ∧
    (apiKeyBlank m.api_key = true →
      jsTruthy (API_KEYS env (detectarTipoAPI m.url)) = false →
      jsTruthy (API_KEYS env TipoAPI.openrouter) = true →
      chatDispatch env db model_id message system_prompt
        = ChatStep.callProvider (detectarTipoAPI m.url) m.url
            ((API_KEYS env TipoAPI.openrouter).getD "") (message.getD "") system_prompt) := by
  refine ⟨?_, ?_, ?_⟩
  · intro hb
    have ht := apiKeyBlank_truthy m.api_key hb
    simp [chatDispatch, hmsg, hmid, hfind, resolverApiKey, hb, ht]
  · intro hb hx
    simp [chatDispatch, hmsg, hmid, hfind, resolverApiKey, hb,
      jsOrOpt_of_truthy (API_KEYS env (detectarTipoAPI m.url)) (API_KEYS env .openrouter) hx, hx]
  · intro hb hx hy
    simp [chatDispatch, hmsg, hmid, hfind, resolverApiKey, hb,
      jsOrOpt_of_falsy (API_KEYS env (detectarTipoAPI m.url)) (API_KEYS env .openrouter) hx, hy]

/-- Witness for C4: a stored non-blank credential is the one handed to the
provider call. -/
theorem claim_C4_witness :
    chatDispatch ⟨some "or-key", none, none⟩
        [⟨"m1", "Modelo", some "https://api.groq.com/v1", some "stored-key", true⟩]
        (some "m1") (some "hola") none
      = ChatStep.callProvider TipoAPI.groq (some "https://api.groq.com/v1") "stored-key"
          "hola" none :=
  (claim_C4 ⟨some "or-key", none, none⟩
    [⟨"m1", "Modelo", some "https://api.groq.com/v1", some "stored-key", true⟩]
    (some "m1") (some "hola") none
    ⟨"m1", "Modelo", some "https://api.groq.com/v1", some "stored-key", true⟩
    (by decide) (by decide) rfl).1 (by decide)

/-- C9: deleting a model is refused with a 400 response and an unchanged
table whenever the table holds at most one row; with two or more rows the
call answers 200, every row carrying the given id is removed, and every
other row survives — with no restriction on `is_custom` (the statement
quantifies over arbitrary tables, so over arbitrary flags). -/
theorem claim_C9 (db : List ModelConfig) (id : String) :
    (db.length ≤ 1 →
      deleteModelEndpoint db id
        = ((400, errBody "No puedes eliminar el último modelo"), db)) ∧
    (2 ≤ db.length →
      (deleteModelEndpoint db id).1.1 = 200 ∧
      (∀ m ∈ (deleteModelEndpoint db id).2, ¬(m.id = id)) ∧
      (∀ m ∈ db, ¬(m.id = id) → m ∈ (deleteModelEndpoint db id).2)) := by
  constructor
  · intro h
    simp [deleteModelEndpoint, h]
  · intro h
    have h1 : ¬(db.length ≤ 1) := by omega
    refine ⟨by simp [deleteModelEndpoint, h1], ?_, ?_⟩
    · intro m hm
      simp only [deleteModelEndpoint, if_neg h1, List.mem_filter] at hm
      simpa using hm.2
    · intro m hm hne
      simp only [deleteModelEndpoint, if_neg h1, List.mem_filter]
      exact ⟨hm, by simpa using hne⟩

/-- Witness for C9: deleting one of two rows answers 200. -/
theorem claim_C9_witness :
    (deleteModelEndpoint
      [⟨"a", "A", none, none, false⟩, ⟨"b", "B", none, none, true⟩] "a").1.1 = 200 :=
  ((claim_C9 [⟨"a", "A", none, none, false⟩, ⟨"b", "B", none, none, true⟩] "a").2
    (by decide)).1

end Piper
